import Mathlib

/-!
# Verification of the Stuvify Jobs backend (src/main.py, src/schemas.py)

Shallow embedding of the job-board backend.  Documents are association
lists from field names to JSON-like values (Python dicts have unique keys;
we model removal as filtering all entries with the key, which agrees on
every dict).  The document-store adapter (`database.py`) and the bson /
pydantic libraries are not part of `src/`; those parts are modelled from
the spec, each marked `Modelled from the spec:` in its doc comment.
Handlers are explicit state-passing functions; Python exceptions become
`Except` values; a FastAPI `HTTPException` raised by a handler becomes an
`Except.error` carrying the HTTP status and detail string.
-/

set_option autoImplicit false

namespace Stuvify

/-- JSON-like field values stored in documents.  `vOid` is a store
identity value (a `bson.ObjectId`), carrying its 24-character hex
rendering. -/
inductive Value where
  | vStr (s : String)
  | vBool (b : Bool)
  | vList (l : List String)
  | vOid (s : String)
  | vNull
  deriving DecidableEq, Repr

open Value

/-- A document: a Python dict with string keys, in insertion order. -/
abbrev Doc : Type := List (String × Value)

/-- The keys of a document. -/
def Doc.keys (d : Doc) : List String := d.map Prod.fst

/-- Python `doc[k]` / `doc.get(k)`: the value at key `k`, if present. -/
def Doc.lookup (d : Doc) (k : String) : Option Value :=
  List.lookup k d

/-- Python `k in doc`. -/
def Doc.hasKey (d : Doc) (k : String) : Bool :=
  d.any (fun p => p.1 = k)

/-- Python `doc.pop(k)` (the removal part): drop the entry with key `k`.
Dict keys are unique, so filtering all entries with key `k` removes
exactly the popped entry. -/
def Doc.removeKey (d : Doc) (k : String) : Doc :=
  d.filter (fun p => p.1 ≠ k)

/-- Python `doc[k] = v`: update the entry in place if the key is present
(dicts keep the original position), otherwise append it. -/
def Doc.setKey (d : Doc) (k : String) (v : Value) : Doc :=
  if d.any (fun p => p.1 = k) then
    d.map (fun p => if p.1 = k then (k, v) else p)
  else
    d ++ [(k, v)]

/-- Python `str(v)` as used on identity values by `serialize_doc`:
`str(ObjectId(h))` is the hex string `h` itself. -/
def Value.pyStr : Value → String
  | vStr s => s
  | vBool b => if b then "True" else "False"
  | vList _ => ""
  | vOid s => s
  | vNull => "None"

/-- Embeds `serialize_doc` from src/main.py lines 26-29 (the non-`None`
branch): if `"_id"` is present, pop it and expose it as a string under
`"id"`. -/
def serializeDocCore (doc : Doc) : Doc :=
  if doc.hasKey "_id" then
    match doc.lookup "_id" with
    | some v => (doc.removeKey "_id").setKey "id" (vStr v.pyStr)
    | none => doc.removeKey "_id"
  else doc

/-- Embeds `serialize_doc` from src/main.py lines 23-29, including the
`None` guard. -/
def serialize_doc : Option Doc → Option Doc
  | none => none
  | some d => some (serializeDocCore d)

/-!
## Store identities (bson.ObjectId) and field validators

Modelled from the spec: `database.py`, `bson` and `pydantic` are not in
`src/`.
-/

/-- A character of a hexadecimal identity string. -/
def isHexChar (c : Char) : Bool :=
  c.isDigit || (('a' ≤ c) && (c ≤ 'f')) || (('A' ≤ c) && (c ≤ 'F'))

/-- Modelled from the spec: a well-formed store identity ("syntactically
valid store identity", §4.5) is a 24-character hexadecimal string;
`ObjectId(s)` raises on any other string.  `parseObjectId` returns the
identity when well-formed and `none` where the constructor would raise. -/
def parseObjectId (s : String) : Option String :=
  if s.length = 24 && s.toList.all isHexChar then some s else none

/-- Modelled from the spec: fresh store identities assigned on insert
("Identity assigned by the store on creation", §3) — the counter rendered
as a 24-character zero-padded hex string. -/
def newOid (n : Nat) : String :=
  let s : String := ⟨Nat.toDigits 16 n⟩
  ⟨List.replicate (24 - s.length) '0' ++ s.toList⟩

/-- Modelled from the spec: pydantic `EmailStr` — "Email field rejects
values without an at-sign-delimited local/domain structure" (§8): exactly
one at-sign, with a non-empty local part before it and a non-empty domain
after it. -/
def isValidEmail (s : String) : Bool :=
  let cs := s.toList
  cs.count '@' = 1 && cs.head? ≠ some '@' && cs.getLast? ≠ some '@'

/-- Modelled from the spec: pydantic `HttpUrl` — "portfolio/resume_url
reject non-URL strings when provided" (§8): an http(s) scheme followed by
a non-empty host. -/
def isValidUrl (s : String) : Bool :=
  let cs := s.toList
  ("http://".toList.isPrefixOf cs && cs.length > 7) ||
    ("https://".toList.isPrefixOf cs && cs.length > 8)

/-!
## Schemas (src/schemas.py)
-/

/-- The `Job` collection schema, src/schemas.py lines 43-56.  The `type`
field is constrained to the literal set below. -/
structure Job where
  title : String
  department : String
  location : String
  type : String := "Full-time"
  description : String
  requirements : List String := []
  featured : Bool := false
  deriving DecidableEq, Repr

/-- The literal employment types admitted by `Job.type`
(src/schemas.py line 51). -/
def jobTypeLiterals : List String :=
  ["Full-time", "Part-time", "Contract", "Internship", "Freelance"]

/-- The `Application` collection schema, src/schemas.py lines 58-68, as
raw input prior to validation. -/
structure ApplicationInput where
  job_id : String
  name : String
  email : String
  portfolio : Option String := none
  resume_url : Option String := none
  cover_letter : Option String := none
  deriving DecidableEq, Repr

/-- Modelled from the spec: pydantic validation of an `Application`
record ("email format, URL format for optional fields", §4.5) — the
constructor call `Application(...)` in src/main.py lines 157-164 raises a
`ValidationError` exactly when a field violates its type. -/
def validateApplication (a : ApplicationInput) : Except String ApplicationInput :=
  if !isValidEmail a.email then .error "validation error: email" else
  match a.portfolio with
  | some u =>
      if !isValidUrl u then .error "validation error: portfolio" else
      match a.resume_url with
      | some r => if !isValidUrl r then .error "validation error: resume_url" else .ok a
      | none => .ok a
  | none =>
      match a.resume_url with
      | some r => if !isValidUrl r then .error "validation error: resume_url" else .ok a
      | none => .ok a

/-- A `Job` as the document inserted into the store (pydantic
`model.dict()` field order from src/schemas.py). -/
def jobToDoc (j : Job) : Doc :=
  [("title", vStr j.title), ("department", vStr j.department),
   ("location", vStr j.location), ("type", vStr j.type),
   ("description", vStr j.description), ("requirements", vList j.requirements),
   ("featured", vBool j.featured)]

/-- An optional string field as a stored value (`None` persists as
null). -/
def optStrValue : Option String → Value
  | some s => vStr s
  | none => vNull

/-- An `Application` as the document inserted into the store. -/
def applicationToDoc (a : ApplicationInput) : Doc :=
  [("job_id", vStr a.job_id), ("name", vStr a.name), ("email", vStr a.email),
   ("portfolio", optStrValue a.portfolio),
   ("resume_url", optStrValue a.resume_url),
   ("cover_letter", optStrValue a.cover_letter)]

/-!
## Document store adapter

Modelled from the spec (§4.1): `database.py` is not in `src/`.  The store
holds the two collections, a fresh-identity counter, and an injected
schedule of insert outcomes (`insertOutcomes`): the adapter "fails with
StoreError" on connectivity or query failure, so the `n`-th insert
performed succeeds or raises according to the `n`-th entry of the
schedule (an exhausted schedule means every later insert succeeds).
`listNamesError` likewise injects a failure into collection-name
enumeration, for the diagnostic check.  Reads never modify the store.
-/

structure Store where
  jobs : List Doc
  applications : List Doc
  nextOid : Nat := 0
  insertOutcomes : List Bool := []
  listNamesError : Option String := none
  deriving DecidableEq, Repr

/-- The collections of a store — the state the business operations may
change. -/
def Store.collections (st : Store) : List Doc × List Doc :=
  (st.jobs, st.applications)

/-- Modelled from the spec: `createDocument(collectionName, record) ->
identity | fails with StoreError` (§4.1) — assigns a fresh identity,
prepends the internal `_id` field and appends the record to the named
collection.  A single insert is all-or-nothing: on StoreError the
collections are unchanged. -/
def create_document (collectionName : String) (record : Doc) (st : Store) :
    Except String String × Store :=
  if st.insertOutcomes.headD true then
    let oid := newOid st.nextOid
    let stored : Doc := ("_id", vOid oid) :: record
    if collectionName = "job" then
      (.ok oid, { st with jobs := st.jobs ++ [stored],
                          nextOid := st.nextOid + 1,
                          insertOutcomes := st.insertOutcomes.tail })
    else
      (.ok oid, { st with applications := st.applications ++ [stored],
                          nextOid := st.nextOid + 1,
                          insertOutcomes := st.insertOutcomes.tail })
  else
    (.error "StoreError", { st with insertOutcomes := st.insertOutcomes.tail })

/-- Does a document match a Mongo-style equality filter? -/
def docMatches (filter : List (String × Value)) (d : Doc) : Bool :=
  filter.all (fun kv => d.lookup kv.1 = some kv.2)

/-- Modelled from the spec: `getDocuments(collectionName, filter)` returns
"all records in the named collection whose fields exactly match every
key/value pair in filter (empty filter returns all records)" (§4.1). -/
def get_documents (collectionName : String) (filter : List (String × Value))
    (st : Store) : List Doc :=
  if collectionName = "job" then (st.jobs).filter (docMatches filter)
  else (st.applications).filter (docMatches filter)

/-- Modelled from the spec: Mongo `count_documents` with an empty filter
counts the records of the collection (src/main.py line 96 counts the
`job` collection). -/
def count_documents (collectionName : String) (st : Store) : Nat :=
  (get_documents collectionName [] st).length

/-- Modelled from the spec: Mongo `find_one` on the `job` collection by
`_id` (src/main.py line 150) — the first stored document whose `_id`
equals the given identity. -/
def find_one_job (oid : String) (st : Store) : Option Doc :=
  st.jobs.find? (fun d => d.lookup "_id" = some (vOid oid))

/-- Modelled from the spec: `db.list_collection_names()` enumerates the
names of the non-empty collections, or throws the injected enumeration
error.  A read: the store is returned unchanged. -/
def list_collection_names (st : Store) : Except String (List String) × Store :=
  match st.listNamesError with
  | some e => (.error e, st)
  | none =>
      ((.ok ((if st.jobs ≠ [] then ["job"] else []) ++
             (if st.applications ≠ [] then ["application"] else []))), st)

/-!
## Request handlers (src/main.py)

A raised FastAPI `HTTPException(status, detail)` is an `Except.error`
carrying `HErr`.
-/

/-- An HTTP error response: status code and detail string. -/
structure HErr where
  status : Nat
  detail : String
  deriving DecidableEq, Repr

/-- Environment configuration read by the diagnostic check
(`os.getenv("DATABASE_URL")`, `os.getenv("DATABASE_NAME")`). -/
structure Env where
  database_url : Option String := none
  database_name : Option String := none
  deriving DecidableEq, Repr

/-- Python truthiness of `os.getenv(...)`: unset or empty is falsy. -/
def envTruthy : Option String → Bool
  | none => false
  | some s => s ≠ ""

/-- The global store handle `db` imported from `database`: possibly
unconfigured (`None`), otherwise a handle with an optional `name`
attribute (`hasattr(db, 'name')`) over the store. -/
structure DbHandle where
  name : Option String := none
  deriving DecidableEq, Repr

/-- The response object built by `GET /test` (src/main.py lines 40-47):
`database_url` and `database_name` are unconditionally overwritten with
environment checks before returning (lines 68-69), so they are plain
strings in the final response. -/
structure TestResponse where
  backend : String
  database : String
  database_url : String
  database_name : String
  connection_status : String
  collections : List String
  deriving DecidableEq, Repr

/-- Embeds `test_database` (`GET /test`), src/main.py lines 37-71.
Every statement of the body either cannot raise or is wrapped in a
`try/except` that converts the exception into a status string, so the
embedding is a total function into `TestResponse`: the handler never
raises.  The inner `try` around `list_collection_names` becomes a match
on its `Except` result; the outer `except` is unreachable because every
remaining statement is a pure field access.  It is threaded through the
store state to make visible that it performs reads only. -/
def test_database (dbh : Option DbHandle) (env : Env) (st : Store) :
    TestResponse × Store :=
  -- lines 40-47: initial response object
  let _database0 : String := "❌ Not Available"
  let connection0 : String := "Not Connected"
  let collections0 : List String := []
  -- lines 49-65
  let r : String × String × List String × Store :=
    match dbh with
    | some _db =>
        -- lines 50-60: db is not None
        let connection1 := "Connected"
        match list_collection_names st with
        | (.ok collections, st') =>
            ("✅ Connected & Working", connection1, collections.take 10, st')
        | (.error e, st') =>
            -- Python `str(e)[:50]`: the first 50 characters of the message
            ("⚠️  Connected but Error: " ++ String.mk (e.toList.take 50),
              connection1, collections0, st')
    | none =>
        -- line 62
        ("⚠️  Available but not initialized", connection0, collections0, st)
  let database1 := r.1
  let connection2 := r.2.1
  let collections1 := r.2.2.1
  let st1 := r.2.2.2
  -- lines 68-69: environment variable checks overwrite both fields
  let url2 : String := if envTruthy env.database_url then "✅ Set" else "❌ Not Set"
  let name2 : String := if envTruthy env.database_name then "✅ Set" else "❌ Not Set"
  ({ backend := "✅ Running", database := database1, database_url := url2,
     database_name := name2, connection_status := connection2,
     collections := collections1 }, st1)

/-- Embeds the filter construction of `list_jobs`, src/main.py lines
77-83: `if department:` — a parameter adds a constraint exactly when it
is supplied and truthy (the empty string is falsy in Python). -/
def buildFilter (department type location : Option String) :
    List (String × Value) :=
  let f0 : List (String × Value) := []
  let f1 := match department with
    | some d => if d ≠ "" then f0 ++ [("department", vStr d)] else f0
    | none => f0
  let f2 := match type with
    | some t => if t ≠ "" then f1 ++ [("type", vStr t)] else f1
    | none => f1
  match location with
  | some l => if l ≠ "" then f2 ++ [("location", vStr l)] else f2
  | none => f2

/-- Embeds `list_jobs` (`GET /api/jobs`), src/main.py lines 75-89.  The
modelled `get_documents` does not throw, so the 500 branch of the
`try/except` is not taken; a read, so the store is not threaded. -/
def list_jobs (department type location : Option String) (st : Store) :
    Except HErr (List Doc) :=
  let filter_query := buildFilter department type location
  let jobs := get_documents "job" filter_query st
  .ok (jobs.map serializeDocCore)

/-- The response of `POST /api/jobs/seed`. -/
structure SeedResponse where
  inserted : Nat
  message : Option String := none
  deriving DecidableEq, Repr

/-- The first hardcoded sample job of `seed_jobs`, src/main.py lines
101-109. -/
def sampleFrontend : Job :=
  { title := "Frontend Developer", department := "Engineering",
    location := "Remote", type := "Full-time",
    description := "Build immersive UIs with React and Three.js for Stuvify.",
    requirements := ["3+ years React", "Experience with R3F/Three.js",
                     "Strong UI skills"],
    featured := true }

/-- The second hardcoded sample job of `seed_jobs`, src/main.py lines
110-117 (`type` "Contract"; `featured` defaults to false). -/
def sampleDesigner : Job :=
  { title := "3D Designer", department := "Design",
    location := "Hybrid - SF", type := "Contract",
    description := "Design GLTF assets and futuristic scenes for our career hub.",
    requirements := ["GLTF/GLB workflow", "Blender/C4D",
                     "Understanding of web performance"] }

/-- The third hardcoded sample job of `seed_jobs`, src/main.py lines
118-125 (`type` "Part-time"; `featured` defaults to false). -/
def sampleMarketer : Job :=
  { title := "Growth Marketer", department := "Marketing",
    location := "Remote", type := "Part-time",
    description := "Drive campaigns and partnerships for student hiring.",
    requirements := ["Lifecycle marketing", "Content strategy", "Analytics"] }

/-- The three hardcoded sample jobs of `seed_jobs`, src/main.py lines
100-126. -/
def sampleJobs : List Job := [sampleFrontend, sampleDesigner, sampleMarketer]

/-- The insert loop of `seed_jobs`, src/main.py lines 127-130: insert the
samples one at a time, counting insertions; a `StoreError` raised by
`create_document` aborts the loop, leaving the earlier inserts in the
store. -/
def seedLoop (samples : List Job) (inserted : Nat) (st : Store) :
    Except String Nat × Store :=
  match samples with
  | [] => (.ok inserted, st)
  | job :: rest =>
      match create_document "job" (jobToDoc job) st with
      | (.ok _, st') => seedLoop rest (inserted + 1) st'
      | (.error e, st') => (.error e, st')

/-- Embeds `seed_jobs` (`POST /api/jobs/seed`), src/main.py lines 93-133:
if the `job` collection is non-empty, report zero insertions and stop;
otherwise insert the three samples one at a time.  Any `StoreError`
raised inside the `try` is surfaced as HTTP 500 with the raw message; the
store keeps whatever the loop already inserted. -/
def seed_jobs (st : Store) : Except HErr SeedResponse × Store :=
  let existing := count_documents "job" st
  if existing > 0 then
    (.ok { inserted := 0, message := some "Jobs already exist" }, st)
  else
    match seedLoop sampleJobs 0 st with
    | (.ok inserted, st') => (.ok { inserted := inserted }, st')
    | (.error e, st') => (.error { status := 500, detail := e }, st')

/-- The payload of `POST /api/apply`, src/main.py lines 137-143.  FastAPI
validates `email : EmailStr` while parsing the request body, before the
handler runs; the other fields are plain optional strings there. -/
structure ApplyPayload where
  job_id : String
  name : String
  email : String
  portfolio : Option String := none
  resume_url : Option String := none
  cover_letter : Option String := none
  deriving DecidableEq, Repr

/-- The success response of `POST /api/apply`. -/
structure ApplyResponse where
  status : String
  application_id : String
  deriving DecidableEq, Repr

/-- The first `try` block of `apply`, src/main.py lines 149-152, with the
exceptions it can raise as `Except.error`: `ObjectId(payload.job_id)`
raises on a malformed identity, and the handler itself raises
`HTTPException(404, "Job not found")` when no job matches.  FastAPI's
`HTTPException` is a subclass of `Exception`, so BOTH exceptions reach
the `except Exception` clause of line 153. -/
def applyLookupJob (job_id : String) (st : Store) : Except HErr Unit :=
  match parseObjectId job_id with
  | none => .error { status := 500, detail := "bson InvalidId" }
  | some oid =>
      match find_one_job oid st with
      | none => .error { status := 404, detail := "Job not found" }
      | some _ => .ok ()

/-- The `Application(...)` constructor arguments of src/main.py lines
157-164: the payload fields, passed through unchanged. -/
def applyInput (payload : ApplyPayload) : ApplicationInput :=
  { job_id := payload.job_id, name := payload.name, email := payload.email,
    portfolio := payload.portfolio, resume_url := payload.resume_url,
    cover_letter := payload.cover_letter }

/-- Embeds `apply` (`POST /api/apply`), src/main.py lines 146-168.  Any
exception from the first block — malformed identity or the raised 404 —
is caught by `except Exception` and re-raised as
`HTTPException(400, "Invalid job id")` (line 153-154).  The second block
validates and persists the `Application`; any exception there — a
pydantic `ValidationError` or a `StoreError` — becomes a 500. -/
def apply (payload : ApplyPayload) (st : Store) :
    Except HErr ApplyResponse × Store :=
  match applyLookupJob payload.job_id st with
  | .error _ => (.error { status := 400, detail := "Invalid job id" }, st)
  | .ok () =>
      match validateApplication (applyInput payload) with
      | .error e => (.error { status := 500, detail := e }, st)
      | .ok app_doc =>
          match create_document "application" (applicationToDoc app_doc) st with
          | (.ok inserted_id, st') =>
              (.ok { status := "ok", application_id := inserted_id }, st')
          | (.error e, st') => (.error { status := 500, detail := e }, st')

/-!
## Spec-side predicates and concrete example states

`matchParam` restates the selection criterion in the words of the spec;
the remaining definitions are concrete stores and payloads used by the
closed theorems below.
-/

/-- The spec's selection criterion for one list parameter: an absent
parameter imposes no constraint; a supplied parameter requires exact
equality of the stored field with the supplied value. -/
def matchParam (doc : Doc) (k : String) : Option String → Bool
  | none => true
  | some v => doc.lookup k = some (vStr v)

/-- A stored job document with identity `newOid 0` and department
`"Engineering"`. -/
def exampleJobDoc : Doc :=
  [("_id", vOid (newOid 0)), ("title", vStr "Frontend Developer"),
   ("department", vStr "Engineering"), ("location", vStr "Remote"),
   ("type", vStr "Full-time")]

/-- A store holding exactly the one example job. -/
def exampleStore : Store :=
  { jobs := [exampleJobDoc], applications := [], nextOid := 1 }

/-- A store with empty collections. -/
def emptyStore : Store := { jobs := [], applications := [] }

/-- An empty store whose adapter will accept the first insert and raise
`StoreError` on the second. -/
def failingSeedStore : Store :=
  { jobs := [], applications := [], insertOutcomes := [true, false] }

/-- An empty store whose collection-name enumeration throws "boom". -/
def errStore : Store :=
  { jobs := [], applications := [], listNamesError := some "boom" }

/-- A well-formed store identity (24 hex characters) matching no stored
job of `exampleStore`. -/
def missingOid : String := "aaaaaaaaaaaaaaaaaaaaaaaa"

/-- An apply payload whose job_id is well-formed but matches no job of
`exampleStore`. -/
def payloadMissingJob : ApplyPayload :=
  { job_id := missingOid, name := "Ada", email := "ada@example.com" }

/-- An apply payload whose job_id is malformed (not 24 hex characters). -/
def payloadMalformedId : ApplyPayload :=
  { job_id := "not-an-id", name := "Ada", email := "ada@example.com" }

/-- An apply payload referencing the example job, with a portfolio value
that is not a syntactically valid URL. -/
def payloadBadPortfolio : ApplyPayload :=
  { job_id := newOid 0, name := "Ada", email := "ada@example.com",
    portfolio := some "not a url" }

/-- An apply payload referencing the example job with all fields valid. -/
def payloadGood : ApplyPayload :=
  { job_id := newOid 0, name := "Ada", email := "ada@example.com" }

/-!
## Theorems

Shared helper lemmas come first, then one theorem per claim (with its
witness or counterexample).
-/

theorem count_documents_job (st : Store) :
    count_documents "job" st = st.jobs.length := by
  simp [count_documents, get_documents, docMatches]

theorem create_document_jobs (c : String) (r : Doc) (st : Store)
    (res : Except String String) (st' : Store)
    (h : create_document c r st = (res, st')) :
    st'.jobs = st.jobs ∨
      st'.jobs = st.jobs ++ [("_id", vOid (newOid st.nextOid)) :: r] := by
  unfold create_document at h
  split at h
  · split at h
    · injection h with h1 h2; right; rw [← h2]
    · injection h with h1 h2; left; rw [← h2]
  · injection h with h1 h2; left; rw [← h2]

theorem create_document_error_state (c : String) (r : Doc) (st : Store)
    (e : String) (st' : Store)
    (h : create_document c r st = (.error e, st')) :
    st'.jobs = st.jobs ∧ st'.applications = st.applications := by
  unfold create_document at h
  split at h
  · split at h <;> simp_all
  · injection h with h1 h2
    rw [← h2]
    exact ⟨rfl, rfl⟩

theorem seedLoop_jobs_length_le (samples : List Job) (inserted : Nat)
    (st : Store) :
    ((seedLoop samples inserted st).2).jobs.length ≤
      st.jobs.length + samples.length := by
  induction samples generalizing inserted st with
  | nil => simp [seedLoop]
  | cons j rest ih =>
      rw [seedLoop]
      rcases h : create_document "job" (jobToDoc j) st with ⟨res, st'⟩
      have hjobs : st'.jobs = st.jobs ∨
          st'.jobs = st.jobs ++ [("_id", vOid (newOid st.nextOid)) :: jobToDoc j] :=
        create_document_jobs "job" (jobToDoc j) st res st' h
      have hlen : st'.jobs.length ≤ st.jobs.length + 1 := by
        rcases hjobs with h1 | h1 <;> simp [h1]
      cases res with
      | ok oid =>
          calc ((seedLoop rest (inserted + 1) st').2).jobs.length
              ≤ st'.jobs.length + rest.length := ih _ _
            _ ≤ st.jobs.length + 1 + rest.length := by omega
            _ = st.jobs.length + (j :: rest).length := by
                simp [List.length_cons]; omega
      | error e =>
          simp only [List.length_cons]
          omega

theorem seed_jobs_snd (st : Store) :
    (seed_jobs st).2 =
      if 0 < st.jobs.length then st else (seedLoop sampleJobs 0 st).2 := by
  unfold seed_jobs
  rw [count_documents_job]
  rcases h : seedLoop sampleJobs 0 st with ⟨res, st'⟩
  by_cases hpos : 0 < st.jobs.length <;> cases res <;> simp [hpos, h]

theorem hasKey_iff_mem_keys (d : Doc) (k : String) :
    Doc.hasKey d k = true ↔ k ∈ d.keys := by
  simp [Doc.hasKey, Doc.keys, List.any_eq_true, List.mem_map]

theorem lookup_isSome_of_hasKey (d : Doc) (k : String)
    (h : Doc.hasKey d k = true) : (d.lookup k).isSome = true := by
  unfold Doc.hasKey at h
  unfold Doc.lookup
  induction d with
  | nil => simp at h
  | cons p rest ih =>
      simp only [List.any_cons, Bool.or_eq_true] at h
      by_cases hk : k == p.1
      · rcases p with ⟨a, b⟩
        simp only [List.lookup]
        rw [hk]
        simp
      · rcases p with ⟨a, b⟩
        simp only [List.lookup]
        rw [Bool.of_not_eq_true hk]
        apply ih
        rcases h with h | h
        · exfalso
          have : a = k := of_decide_eq_true h
          exact hk (by simp [this])
        · exact h

theorem keys_removeKey_not_mem (d : Doc) (k : String) :
    k ∉ (d.removeKey k).keys := by
  intro h
  rcases List.mem_map.mp h with ⟨p, hp, hpk⟩
  have hmem := List.of_mem_filter hp
  simp only [ne_eq, decide_not, Bool.not_eq_true', decide_eq_false_iff_not] at hmem
  exact hmem hpk

theorem keys_setKey_self (d : Doc) (k : String) (v : Value) :
    k ∈ (d.setKey k v).keys := by
  unfold Doc.setKey Doc.keys
  split
  · next hany =>
      rcases List.any_eq_true.mp hany with ⟨p, hp, hpk⟩
      have hpk' : p.1 = k := of_decide_eq_true hpk
      refine List.mem_map.mpr ⟨(k, v), ?_, rfl⟩
      refine List.mem_map.mpr ⟨p, hp, ?_⟩
      simp [hpk']
  · simp

theorem keys_setKey_subset (d : Doc) (k k' : String) (v : Value)
    (h : k' ∈ (d.setKey k v).keys) : k' ∈ d.keys ∨ k' = k := by
  unfold Doc.setKey Doc.keys at h
  split at h
  · rcases List.mem_map.mp h with ⟨p', hp', hfst⟩
    rcases List.mem_map.mp hp' with ⟨p, hp, hmap⟩
    by_cases hpk : p.1 = k
    · right
      rw [if_pos hpk] at hmap
      rw [← hmap] at hfst
      exact hfst.symm
    · left
      rw [if_neg hpk] at hmap
      rw [← hmap] at hfst
      exact List.mem_map.mpr ⟨p, hp, hfst⟩
  · rw [List.map_append] at h
    rcases List.mem_append.mp h with h1 | h1
    · exact Or.inl h1
    · right
      simpa using h1

theorem serializeDocCore_keys (doc : Doc) :
    "_id" ∉ (serializeDocCore doc).keys ∧
      ("_id" ∈ doc.keys → "id" ∈ (serializeDocCore doc).keys) := by
  unfold serializeDocCore
  by_cases hk : Doc.hasKey doc "_id" = true
  · rw [if_pos hk]
    rcases hl : doc.lookup "_id" with _ | v
    · exfalso
      have := lookup_isSome_of_hasKey doc "_id" hk
      rw [hl] at this
      simp at this
    · constructor
      · intro hmem
        rcases keys_setKey_subset _ _ _ _ hmem with h1 | h1
        · exact keys_removeKey_not_mem doc "_id" h1
        · exact absurd h1 (by decide)
      · intro _
        exact keys_setKey_self _ _ _
  · rw [if_neg hk]
    constructor
    · intro hmem
      exact hk ((hasKey_iff_mem_keys doc "_id").mpr hmem)
    · intro hmem
      exact absurd ((hasKey_iff_mem_keys doc "_id").mpr hmem) hk

/-- C3: seeding is idempotent.  For every store whose job collection is
non-empty, `seed_jobs` is a no-op reporting `inserted = 0` with message
"Jobs already exist" and leaves the store untouched; and starting from a
store with an empty job collection, two consecutive seed calls never
leave more than three Job records in the store. -/
theorem seed_is_idempotent (st : Store) :
    (st.jobs ≠ [] →
      seed_jobs st =
        (.ok { inserted := 0, message := some "Jobs already exist" }, st)) ∧
    (st.jobs = [] →
      ((seed_jobs (seed_jobs st).2).2).jobs.length ≤ 3) := by
  constructor
  · intro h
    have hpos : 0 < st.jobs.length := List.length_pos.mpr h
    unfold seed_jobs
    rw [count_documents_job]
    simp [hpos]
  · intro h
    have hlen : ∀ st' : Store, ((seed_jobs st').2).jobs.length ≤
        st'.jobs.length + 3 := by
      intro st'
      rw [seed_jobs_snd]
      by_cases hpos : 0 < st'.jobs.length
      · rw [if_pos hpos]; omega
      · rw [if_neg hpos]
        have := seedLoop_jobs_length_le sampleJobs 0 st'
        simpa [sampleJobs] using this
    have h1 : ((seed_jobs st).2).jobs.length ≤ 3 := by
      have := hlen st
      rw [h] at this
      simpa using this
    rw [seed_jobs_snd]
    by_cases h2 : 0 < ((seed_jobs st).2).jobs.length
    · rw [if_pos h2]; exact h1
    · rw [if_neg h2]
      have h0 : ((seed_jobs st).2).jobs.length = 0 := by omega
      have h3 := seedLoop_jobs_length_le sampleJobs 0 (seed_jobs st).2
      have hlen3 : sampleJobs.length = 3 := rfl
      rw [hlen3] at h3
      omega

/-- C3 witness: over the concrete one-job `exampleStore` the first part
applies — seeding reports zero insertions and leaves the store unchanged
— and over the empty store the second part bounds two consecutive seeds
by three records. -/
theorem seed_is_idempotent_witness :
    seed_jobs exampleStore =
      (.ok { inserted := 0, message := some "Jobs already exist" },
        exampleStore) ∧
    ((seed_jobs (seed_jobs emptyStore).2).2).jobs.length ≤ 3 :=
  ⟨(seed_is_idempotent exampleStore).1 (by decide),
   (seed_is_idempotent emptyStore).2 rfl⟩

/-- C7: on a store whose job collection is empty and whose adapter
raises no store errors, `seed_jobs` inserts exactly the three hardcoded
sample Job records — `sampleFrontend`, `sampleDesigner`, `sampleMarketer`
with their hardcoded title/department/location/type/description/
requirements/featured values — one at a time with consecutive fresh
identities, and returns `inserted = 3`. -/
theorem seed_on_empty_inserts_three_samples (st : Store)
    (hjobs : st.jobs = []) (houtcomes : st.insertOutcomes = []) :
    seed_jobs st =
      (.ok { inserted := 3, message := none },
       { st with
           jobs := [("_id", vOid (newOid st.nextOid)) :: jobToDoc sampleFrontend,
                    ("_id", vOid (newOid (st.nextOid + 1))) :: jobToDoc sampleDesigner,
                    ("_id", vOid (newOid (st.nextOid + 2))) :: jobToDoc sampleMarketer],
           nextOid := st.nextOid + 3 }) := by
  obtain ⟨jobs, apps, noid, outcomes, lne⟩ := st
  simp only at hjobs houtcomes
  subst hjobs
  subst houtcomes
  simp [seed_jobs, count_documents, get_documents, docMatches, sampleJobs,
        seedLoop, create_document, Store.mk.injEq]

/-- C7 witness: seeding the concrete empty store inserts the three
sample records with identities 0, 1, 2 and reports three insertions. -/
theorem seed_on_empty_inserts_three_samples_witness :
    seed_jobs emptyStore =
      (.ok { inserted := 3, message := none },
       { emptyStore with
           jobs := [("_id", vOid (newOid 0)) :: jobToDoc sampleFrontend,
                    ("_id", vOid (newOid 1)) :: jobToDoc sampleDesigner,
                    ("_id", vOid (newOid 2)) :: jobToDoc sampleMarketer],
           nextOid := 3 }) :=
  seed_on_empty_inserts_three_samples emptyStore rfl rfl

/-- C1: the claim is violated by the code.  For a malformed job_id the
operation does fail with 400 "Invalid job id" as claimed (last conjunct);
but for a WELL-FORMED identity matching no job, the
`HTTPException(404, "Job not found")` raised inside the `try` block of
src/main.py line 152 is itself an `Exception`, so the blanket
`except Exception` of line 153 catches it and re-raises
`HTTPException(400, "Invalid job id")`: the well-formed-but-missing case
answers 400, not the claimed 404.  The conjuncts exhibit this at the
concrete failing input `missingOid` over `exampleStore`. -/
theorem apply_wellformed_missing_job_answers_400 :
    (parseObjectId missingOid).isSome = true ∧
    find_one_job missingOid exampleStore = none ∧
    (apply payloadMissingJob exampleStore).1 =
      .error { status := 400, detail := "Invalid job id" } ∧
    (apply payloadMalformedId exampleStore).1 =
      .error { status := 400, detail := "Invalid job id" } := by
  refine ⟨rfl, rfl, rfl, rfl⟩

/-- C2 counterexample: an apply request referencing the existing example
job, whose portfolio is not a syntactically valid URL, fails with HTTP
500 — a server error, not the claimed client error (4xx): the pydantic
`ValidationError` raised by `Application(...)` is caught by the
`except Exception` of src/main.py line 167 and surfaced as 500. -/
theorem apply_validation_failure_answers_500_counterexample :
    (find_one_job (newOid 0) exampleStore).isSome = true ∧
    payloadBadPortfolio.portfolio = some "not a url" ∧
    isValidUrl "not a url" = false ∧
    (apply payloadBadPortfolio exampleStore).1 =
      .error { status := 500, detail := "validation error: portfolio" } := by
  refine ⟨rfl, rfl, rfl, rfl⟩

/-- C4 counterexample: with the department parameter supplied as the
empty string, `list_jobs` does not return "exactly those Job records
whose corresponding fields equal every supplied value": it returns the
example job, whose department is "Engineering", not the supplied "". -/
theorem list_jobs_empty_string_filter_counterexample :
    list_jobs (some "") none none exampleStore =
      .ok [serializeDocCore exampleJobDoc] ∧
    exampleJobDoc.lookup "department" = some (vStr "Engineering") ∧
    "Engineering" ≠ "" := by
  refine ⟨rfl, rfl, by decide⟩

/-- C5 counterexample: seeding an empty store whose adapter fails on the
second insert is a failing operation (HTTP 500) that nevertheless changes
the store: exactly one of the three sample Jobs remains persisted — a
partial-failure outcome the claim rules out. -/
theorem seed_partial_failure_counterexample :
    failingSeedStore.jobs = [] ∧
    (seed_jobs failingSeedStore).1 =
      .error { status := 500, detail := "StoreError" } ∧
    ((seed_jobs failingSeedStore).2).jobs.length = 1 := by
  refine ⟨rfl, rfl, rfl⟩

theorem buildFilter_matches (d t l : Option String)
    (hd : ∀ s, d = some s → s ≠ "") (ht : ∀ s, t = some s → s ≠ "")
    (hl : ∀ s, l = some s → s ≠ "") (doc : Doc) :
    docMatches (buildFilter d t l) doc =
      (matchParam doc "department" d &&
        (matchParam doc "type" t && matchParam doc "location" l)) := by
  rcases d with _ | ds <;> rcases t with _ | ts <;> rcases l with _ | ls <;>
    simp_all [buildFilter, docMatches, matchParam]

/-- C4 (amended): for every subset of the three parameters supplied with
NON-EMPTY values, `list_jobs` returns exactly the Job records matching
every supplied value by field equality (a logical AND across supplied
filters); absent parameters impose no constraint, and with no parameters
all records are returned (`matchParam _ _ none = true`, so the filter
predicate is constantly true).  An empty-string value is excluded here:
it imposes no constraint at all (the counterexample above). -/
theorem list_jobs_returns_matching_jobs (d t l : Option String) (st : Store)
    (hd : ∀ s, d = some s → s ≠ "") (ht : ∀ s, t = some s → s ≠ "")
    (hl : ∀ s, l = some s → s ≠ "") :
    list_jobs d t l st =
      .ok ((st.jobs.filter (fun doc =>
        matchParam doc "department" d &&
          (matchParam doc "type" t && matchParam doc "location" l))).map
        serializeDocCore) := by
  have hfun : docMatches (buildFilter d t l) = fun doc =>
      (matchParam doc "department" d &&
        (matchParam doc "type" t && matchParam doc "location" l)) :=
    funext (buildFilter_matches d t l hd ht hl)
  simp only [list_jobs, get_documents, if_pos]
  rw [hfun]

/-- C4 witness: filtering the concrete `exampleStore` by department
"Engineering" agrees with the claim-side selection predicate. -/
theorem list_jobs_returns_matching_jobs_witness :
    list_jobs (some "Engineering") none none exampleStore =
      .ok ((exampleStore.jobs.filter (fun doc =>
        matchParam doc "department" (some "Engineering") &&
          (matchParam doc "type" none && matchParam doc "location" none))).map
        serializeDocCore) :=
  list_jobs_returns_matching_jobs (some "Engineering") none none exampleStore
    (by intro s hs; injection hs with h; subst h; decide)
    (by intro s hs; cases hs) (by intro s hs; cases hs)

/-- C2 (amended): an apply request that references an existing Job but
whose payload fails `Application` record validation (portfolio or
resume_url not a syntactically valid URL) fails with a SERVER error
(HTTP 500) carrying the validation message — not a client error: the
`ValidationError` is caught by the handler's generic
`except Exception` and re-raised as a 500.  The store is unchanged. -/
theorem apply_validation_failure_is_server_error (p : ApplyPayload)
    (st : Store) (oid : String) (e : String)
    (hoid : parseObjectId p.job_id = some oid)
    (hjob : (find_one_job oid st).isSome = true)
    (hval : validateApplication (applyInput p) = .error e) :
    (apply p st).1 = .error { status := 500, detail := e } ∧
      (apply p st).2 = st := by
  unfold apply applyLookupJob
  rcases hfind : find_one_job oid st with _ | dd
  · rw [hfind] at hjob
    simp at hjob
  · simp [hoid, hfind, hval]

/-- C2 (amended) witness: the concrete bad-portfolio payload over the
one-job store yields the 500 with the portfolio validation message and
leaves the store unchanged. -/
theorem apply_validation_failure_is_server_error_witness :
    (apply payloadBadPortfolio exampleStore).1 =
      .error { status := 500, detail := "validation error: portfolio" } ∧
      (apply payloadBadPortfolio exampleStore).2 = exampleStore :=
  apply_validation_failure_is_server_error payloadBadPortfolio exampleStore
    (newOid 0) "validation error: portfolio" rfl rfl rfl

/-- C5 (amended): the single-insert and single-lookup operations are
all-or-nothing — whenever `apply` fails, both collections are exactly as
before — but `seed_jobs` is NOT: there is a store state (empty job
collection, adapter failing on the second insert) on which seeding fails
with an error yet leaves exactly one of the three sample Jobs persisted,
a partial-failure outcome. -/
theorem apply_atomic_seed_partial :
    (∀ (p : ApplyPayload) (st : Store) (e : HErr),
        (apply p st).1 = .error e →
          ((apply p st).2.jobs = st.jobs ∧
            (apply p st).2.applications = st.applications)) ∧
    (∃ st : Store, st.jobs = [] ∧
        (∃ e : HErr, (seed_jobs st).1 = .error e) ∧
        ((seed_jobs st).2).jobs.length = 1) := by
  constructor
  · intro p st e h
    unfold apply at h ⊢
    cases h1 : applyLookupJob p.job_id st with
    | error e1 => exact ⟨rfl, rfl⟩
    | ok u =>
        cases u
        cases h2 : validateApplication (applyInput p) with
        | error e1 => exact ⟨rfl, rfl⟩
        | ok a =>
            rcases h3 : create_document "application" (applicationToDoc a) st
              with ⟨res, st'⟩
            cases res with
            | ok o => exact absurd h (by simp [h1, h2, h3])
            | error e2 =>
                have hgoal := create_document_error_state "application"
                  (applicationToDoc a) st e2 st' h3
                simp only [h1, h2, h3]
                exact hgoal
  · exact ⟨failingSeedStore, rfl, ⟨{ status := 500, detail := "StoreError" }, rfl⟩, rfl⟩

/-- C5 (amended) witness: a concrete failing `apply` (malformed id) over
the one-job store leaves both collections unchanged. -/
theorem apply_atomic_seed_partial_witness :
    (apply payloadMalformedId exampleStore).2.jobs = exampleStore.jobs ∧
      (apply payloadMalformedId exampleStore).2.applications =
        exampleStore.applications :=
  apply_atomic_seed_partial.1 payloadMalformedId exampleStore
    { status := 400, detail := "Invalid job id" } rfl

/-- C6: the diagnostic check never raises.  Its embedding is a total
function into `TestResponse` — every exception path of the source is
caught — and for every configuration, including no store handle and a
store whose collection enumeration throws, it answers with descriptive
status strings: backend always "✅ Running", and the database field
reporting unavailability, success, or the truncated enumeration error. -/
theorem test_database_never_raises (dbh : Option DbHandle) (env : Env)
    (st : Store) :
    ((test_database dbh env st).1.backend = "✅ Running") ∧
    (dbh = none →
      (test_database dbh env st).1.database =
        "⚠️  Available but not initialized") ∧
    (∀ h : DbHandle, dbh = some h → st.listNamesError = none →
      (test_database dbh env st).1.database = "✅ Connected & Working") ∧
    (∀ (h : DbHandle) (e : String), dbh = some h →
      st.listNamesError = some e →
      (test_database dbh env st).1.database =
        "⚠️  Connected but Error: " ++ String.mk (e.toList.take 50)) := by
  cases dbh <;> cases he : st.listNamesError <;>
    simp [test_database, list_collection_names, he]

/-- C6 witness: with no handle the check reports "not initialized"; with
a handle over a store whose enumeration throws "boom" it reports the
truncated error string — in both cases returning, not raising. -/
theorem test_database_never_raises_witness :
    (test_database none {} emptyStore).1.database =
      "⚠️  Available but not initialized" ∧
    (test_database (some {}) {} errStore).1.database =
      "⚠️  Connected but Error: " ++ String.mk ("boom".toList.take 50) :=
  ⟨(test_database_never_raises none {} emptyStore).2.1 rfl,
   (test_database_never_raises (some {}) {} errStore).2.2.2 {} "boom" rfl rfl⟩

/-- C8: identity serialization.  Every record produced by
`serializeDocCore` is free of the internal `_id` field, and any record
that carried `_id` carries the public string field `id` afterwards; in
particular every record returned outward by `list_jobs` is free of
`_id`. -/
theorem outward_records_expose_public_id :
    (∀ doc : Doc, "_id" ∉ (serializeDocCore doc).keys ∧
        ("_id" ∈ doc.keys → "id" ∈ (serializeDocCore doc).keys)) ∧
    (∀ (d t l : Option String) (st : Store) (docs : List Doc),
        list_jobs d t l st = .ok docs → ∀ r ∈ docs, "_id" ∉ r.keys) := by
  constructor
  · exact serializeDocCore_keys
  · intro d t l st docs h r hr
    simp only [list_jobs, Except.ok.injEq] at h
    rw [← h] at hr
    rcases List.mem_map.mp hr with ⟨doc0, _, rfl⟩
    exact (serializeDocCore_keys doc0).1

/-- C8 witness: the serialized example job document has no `_id` key and
does have an `id` key. -/
theorem outward_records_expose_public_id_witness :
    "_id" ∉ (serializeDocCore exampleJobDoc).keys ∧
      "id" ∈ (serializeDocCore exampleJobDoc).keys :=
  ⟨(outward_records_expose_public_id.1 exampleJobDoc).1,
   (outward_records_expose_public_id.1 exampleJobDoc).2 (by decide)⟩

/-- C9: the diagnostic check mutates no state: for every handle,
environment and store state, `test_database` returns the store exactly as
it received it (it performs only the read `list_collection_names`). -/
theorem test_database_mutates_no_state (dbh : Option DbHandle) (env : Env)
    (st : Store) : (test_database dbh env st).2 = st := by
  cases dbh with
  | none => simp [test_database]
  | some h =>
      cases he : st.listNamesError <;>
        simp [test_database, list_collection_names, he]

/-- C10: in `list_jobs` a parameter supplied as the empty string is
falsy in Python (`if department:`), so it adds no filter constraint and
behaves exactly like an absent parameter — for each of the three
parameters, on every store.  Consequently a stored empty-string field can
never be selected through that parameter. -/
theorem list_jobs_empty_string_param_like_absent (st : Store)
    (d t l : Option String) :
    list_jobs (some "") t l st = list_jobs none t l st ∧
    list_jobs d (some "") l st = list_jobs d none l st ∧
    list_jobs d t (some "") st = list_jobs d t none st := by
  refine ⟨?_, ?_, ?_⟩ <;> simp [list_jobs, buildFilter]

end Stuvify
